import Mathlib

/-!
Shallow embedding of the virtlet tap-manager sources:
`pkg/tapmanager/fdserver.go` (FD server/client, wire protocol) and the
tap FD source / fake CNI client file (`TapFDSource`, `FakeCNIClient`).
Go machine integers are modelled as `Nat` (or `Int` where the Go type is
a signed `int`), byte slices as `List Nat`, and Go strings as `String`
or `List Char`.  Fallible operations return `Option`/`Except`.
-/

namespace Virtlet

/-! ### Protocol constants (fdserver.go, `const` block) -/

def fdMagic : Nat := 0x42424242

def fdAdd : Nat := 0

def fdRelease : Nat := 1

def fdGet : Nat := 2

def fdResponse : Nat := 0x80

def fdAddResponse : Nat := fdAdd ||| fdResponse

def fdReleaseResponse : Nat := fdRelease ||| fdResponse

def fdGetResponse : Nat := fdGet ||| fdResponse

def fdError : Nat := 0xff

/-! ### Wire header codec (fdHeader, binary.Read/Write with binary.BigEndian)

`fdHeader` is a fixed-layout struct `{Magic uint32, Command uint8,
DataSize uint32, OobSize uint32, Key [64]byte}`.  `encoding/binary`
packs it field by field, big-endian, with no padding: 4+1+4+4+64 = 77
bytes.  Bytes are modelled as `Nat` values below 256. -/

structure FdHeader where
  magic : Nat
  command : Nat
  dataSize : Nat
  oobSize : Nat
  key : List Nat
deriving DecidableEq, Repr

/-- Field bounds imposed by the Go types (`uint32`, `uint8`, `[64]byte`). -/
def FdHeader.WF (h : FdHeader) : Prop :=
  h.magic < 2 ^ 32 ∧ h.command < 2 ^ 8 ∧ h.dataSize < 2 ^ 32 ∧
    h.oobSize < 2 ^ 32 ∧ h.key.length = 64 ∧ ∀ b ∈ h.key, b < 256

instance (h : FdHeader) : Decidable h.WF := by
  unfold FdHeader.WF; infer_instance

/-- Big-endian bytes of a `uint32`, as written by `binary.Write`. -/
def beBytes32 (n : Nat) : List Nat :=
  [n / 2 ^ 24 % 256, n / 2 ^ 16 % 256, n / 2 ^ 8 % 256, n % 256]

/-- Value of four big-endian bytes, as read by `binary.Read`. -/
def beVal4 (b0 b1 b2 b3 : Nat) : Nat :=
  ((b0 * 256 + b1) * 256 + b2) * 256 + b3

/-- `binary.Write(c, binary.BigEndian, hdr)`: the 77 bytes put on the wire. -/
def encodeHeader (h : FdHeader) : List Nat :=
  beBytes32 h.magic ++ [h.command] ++ beBytes32 h.dataSize ++
    beBytes32 h.oobSize ++ h.key

/-- `binary.Read(c, binary.BigEndian, &hdr)`: parse exactly 77 bytes back
into the struct; any other length fails the read. -/
def decodeHeader (bs : List Nat) : Option FdHeader :=
  match bs with
  | m0 :: m1 :: m2 :: m3 :: c :: d0 :: d1 :: d2 :: d3 :: o0 :: o1 :: o2 :: o3 :: rest =>
    if rest.length = 64 then
      some ⟨beVal4 m0 m1 m2 m3, c, beVal4 d0 d1 d2 d3, beVal4 o0 o1 o2 o3, rest⟩
    else none
  | _ => none

/-! ### Key field encoding (fdKey, fdHeader.GetKey)

Go strings are modelled at the character level; for the ASCII keys the
protocol deals in, Go bytes and runes coincide. -/

/-- `fdKey`: left-justify the key in a 64-byte field, padding the tail
with spaces (byte 32); positions `n < len(key)` hold `key[n]`, the rest
hold `0x20`, which for `len key ≤ 64` is `key ++ padding` and in general
truncates at 64. -/
def fdKey (key : List Char) : List Char :=
  key.take 64 ++ List.replicate (64 - key.length) ' '

/-- `unicode.IsSpace` as used by `strings.TrimSpace` (Unicode
White_Space property). -/
def goIsSpace (c : Char) : Bool :=
  let n := c.toNat
  (decide (9 ≤ n) && decide (n ≤ 13)) || decide (n = 32) ||
    decide (n = 0x85) || decide (n = 0xa0) || decide (n = 0x1680) ||
    (decide (0x2000 ≤ n) && decide (n ≤ 0x200a)) || decide (n = 0x2028) ||
    decide (n = 0x2029) || decide (n = 0x202f) || decide (n = 0x205f) ||
    decide (n = 0x3000)

/-- `strings.TrimSpace`: drop leading and trailing White_Space characters. -/
def trimSpace (l : List Char) : List Char :=
  ((l.dropWhile goIsSpace).reverse.dropWhile goIsSpace).reverse

/-- `fdHeader.GetKey`: `strings.TrimSpace(string(hdr.Key[:]))`. -/
def getKey (key64 : List Char) : List Char :=
  trimSpace key64

/-! ### FD registry and server dispatch (FDServer)

The registry `fds map[string]int` is modelled as an association list
whose lookup sees the most recent insertion; `serveAdd`, `serveRelease`,
`serveGet` and the per-connection loop `serveConn` operate on parsed
frames (header read and `GetKey` already applied).  The `FDSource` the
server delegates to is a pair of functions. -/

def lookupAssoc {α : Type} (l : List (String × α)) (key : String) : Option α :=
  (l.find? (fun p => p.1 == key)).map Prod.snd

def removeAssoc {α : Type} (l : List (String × α)) (key : String) : List (String × α) :=
  l.filter (fun p => !(p.1 == key))

/-- The `FDSource` interface: `GetFD(key, data) (int, []byte, error)` and
`GetInfo(key) ([]byte, error)`. -/
structure FDSourceModel where
  getFDFn : String → List Nat → Except String (Nat × List Nat)
  getInfoFn : String → Except String (List Nat)

/-- `FDServer`: the source it delegates to and the fd registry. -/
structure FDServer where
  source : FDSourceModel
  fds : List (String × Nat)

/-- `FDServer.addFD`: under the lock, fail if the key is found, else
insert; returns the updated registry and the success flag. -/
def FDServer.addFD (s : FDServer) (key : String) (fd : Nat) : FDServer × Bool :=
  if (lookupAssoc s.fds key).isSome then (s, false)
  else ({ s with fds := (key, fd) :: s.fds }, true)

/-- `FDServer.removeFD`: under the lock, `delete(s.fds, key)`. -/
def FDServer.removeFD (s : FDServer) (key : String) : FDServer :=
  { s with fds := removeAssoc s.fds key }

/-- `FDServer.getFD`: lookup, `bad fd key` error when absent. -/
def FDServer.getFD (s : FDServer) (key : String) : Option Nat :=
  lookupAssoc s.fds key

/-- The errors the dispatch handlers produce (`fmt.Errorf` chains are
modelled as tagged values; `message` below renders the Go text). -/
inductive ServeErr
  | errorGettingFD (msg : String)
  | fdKeyAlreadyExists
  | badFDKey (key : String)
  | cantGetKeyInfo (msg : String)
  | badCommand
deriving DecidableEq, Repr

/-- The Go error strings; `serveAdd` passes the `nil` error to `%q`, so
the duplicate-key message ends in `%!q(<nil>)`. -/
def ServeErr.message : ServeErr → String
  | .errorGettingFD m => "error getting fd: " ++ m
  | .fdKeyAlreadyExists => "fd key already exists: %!q(<nil>)"
  | .badFDKey k => "bad fd key: \"" ++ k ++ "\""
  | .cantGetKeyInfo m => "can't get key info: " ++ m
  | .badCommand => "bad command"

/-- `err.Error()` as payload bytes of an error response (ASCII). -/
def ServeErr.bytes (e : ServeErr) : List Nat :=
  e.message.data.map Char.toNat

/-- Response header as built by the handlers (magic always `fdMagic`;
the key is echoed from the request, or zero / absent on errors). -/
structure RespHdr where
  command : Nat
  dataSize : Nat
  oobSize : Nat
  key : String
deriving DecidableEq, Repr

/-- Error response header: `{Magic: fdMagic, Command: fdError,
DataSize: len(data), OobSize: 0}` (key left at the zero value). -/
def errRespHdr (e : ServeErr) : RespHdr :=
  { command := fdError, dataSize := e.bytes.length, oobSize := 0, key := "" }

/-- Outcome of `FDServer.serveAdd`: the updated server, the response
(header and payload) or the error, and whether `source.GetFD` ran. -/
structure AddResult where
  server : FDServer
  resp : Except ServeErr (RespHdr × List Nat)
  sourceInvoked : Bool

/-- `FDServer.serveAdd`: read the payload, then call `source.GetFD(key,
data)`, and only then try `addFD`; a duplicate key is detected after the
source call, and the registry is left unchanged on every error. -/
def FDServer.serveAdd (s : FDServer) (key : String) (data : List Nat) : AddResult :=
  match s.source.getFDFn key data with
  | .error e => ⟨s, .error (.errorGettingFD e), true⟩
  | .ok (fd, respData) =>
    let r := s.addFD key fd
    if r.2 then
      ⟨r.1,
       .ok ({ command := fdAddResponse, dataSize := respData.length,
              oobSize := 0, key := key }, respData),
       true⟩
    else ⟨s, .error .fdKeyAlreadyExists, true⟩

/-- `FDServer.serveRelease`: best-effort `removeFD`, then an
unconditional `fdReleaseResponse` header; there is no error path. -/
def FDServer.serveRelease (s : FDServer) (key : String) : FDServer × RespHdr :=
  (s.removeFD key,
   { command := fdReleaseResponse, dataSize := 0, oobSize := 0, key := key })

/-- `syscall.UnixRights(fd)`: ancillary bytes carrying the descriptor;
the claims never inspect the cmsg layout, so it is abstracted to the
carried descriptor. -/
def unixRights (fd : Nat) : List Nat :=
  [fd]

/-- `FDServer.serveGet`: registry lookup, then `source.GetInfo`; on
success the info is the payload and the rights are the OOB bytes. -/
def FDServer.serveGet (s : FDServer) (key : String) :
    Except ServeErr (RespHdr × List Nat × List Nat) :=
  match s.getFD key with
  | none => .error (.badFDKey key)
  | some fd =>
    match s.source.getInfoFn key with
    | .error e => .error (.cantGetKeyInfo e)
    | .ok info =>
      let rights := unixRights fd
      .ok ({ command := fdGetResponse, dataSize := info.length,
             oobSize := rights.length, key := key }, info, rights)

/-- One parsed request frame (header fields after `GetKey`, plus the
payload that `serveAdd` reads). -/
structure Frame where
  magic : Nat
  command : Nat
  key : String
  data : List Nat
deriving DecidableEq, Repr

/-- What one iteration of the `serveConn` loop does with a frame:
either it writes a response (header, payload, OOB) and keeps looping, or
it returns an error, which closes the connection (deferred `c.Close()`)
without writing anything. -/
inductive StepOut
  | reply (hdr : RespHdr) (data : List Nat) (oob : List Nat)
  | closeBadMagic
deriving DecidableEq, Repr

/-- One iteration of `FDServer.serveConn`: bad magic fails the
connection; a dispatch error (including `bad command` for an unknown
opcode) becomes an `fdError` response on the still-open connection. -/
def FDServer.serveConnStep (s : FDServer) (f : Frame) : FDServer × StepOut :=
  if f.magic ≠ fdMagic then (s, .closeBadMagic)
  else if f.command = fdAdd then
    let r := s.serveAdd f.key f.data
    match r.resp with
    | .ok (hdr, data) => (r.server, .reply hdr data [])
    | .error e => (r.server, .reply (errRespHdr e) e.bytes [])
  else if f.command = fdRelease then
    let r := s.serveRelease f.key
    (r.1, .reply r.2 [] [])
  else if f.command = fdGet then
    match s.serveGet f.key with
    | .ok (hdr, data, oob) => (s, .reply hdr data oob)
    | .error e => (s, .reply (errRespHdr e) e.bytes [])
  else (s, .reply (errRespHdr .badCommand) (ServeErr.bytes .badCommand) [])

/-- `FDServer.serveConn` over the connection's frames: returns the final
server state, the responses written in order, and whether the connection
was failed (`true`) rather than ended by EOF.  Frames after a failure
are never processed. -/
def FDServer.serveConn : FDServer → List Frame →
    FDServer × List (RespHdr × List Nat × List Nat) × Bool
  | s, [] => (s, [], false)
  | s, f :: rest =>
    match s.serveConnStep f with
    | (s', .closeBadMagic) => (s', [], true)
    | (s', .reply hdr data oob) =>
      let r := s'.serveConn rest
      (r.1, (hdr, data, oob) :: r.2.1, r.2.2)

/-! ### Server/client payload-size handling (C9)

`WriteMsgUnix` on a `net.UnixConn` transmits one dummy byte when the
payload is empty but OOB data is present (documented Go `net` package
behavior, relied upon by the comment at fdserver.go:379). -/

/-- Payload bytes actually transmitted by `c.WriteMsgUnix(data, oobData, nil)`. -/
def writeMsgUnixPayloadBytes (data oob : List Nat) : Nat :=
  if data.length = 0 ∧ oob.length ≠ 0 then 1 else data.length

/-- The write step at the end of the `serveConn` loop: a message is
written only when there is payload or OOB data; `none` means no message
follows the header. -/
def serverWritesMessage (data oob : List Nat) : Option Nat :=
  if data.length > 0 ∨ oob.length > 0 then some (writeMsgUnixPayloadBytes data oob)
  else none

/-- The client-side size check in `FDClient.request`: the read length
`n` is rejected iff `n != len(respData) && (len(respData) != 0 || n != 1)`. -/
def clientAcceptsDataSize (expected n : Nat) : Bool :=
  !(decide (n ≠ expected) && (decide (expected ≠ 0) || decide (n ≠ 1)))

/-! ### CNI data model (cnicurrent.Result, cnitypes.DNS)

Only the fields the tap FD source and the fake CNI client touch are
carried; strings stand for the addresses and routes the claims never
inspect. -/

structure GoDNS where
  nameservers : List String
  domain : String
  search : List String
  options : List String
deriving DecidableEq, Repr

structure CNIInterface where
  name : String
  mac : String
  sandbox : String
deriving DecidableEq, Repr

/-- `cnicurrent.IPConfig`; `interface` is a Go `int`, hence `Int`. -/
structure CNIIPConfig where
  version : String
  interface : Int
  address : String
  gateway : String
deriving DecidableEq, Repr

structure CNIRoute where
  dst : String
  gw : String
deriving DecidableEq, Repr

structure CNIResult where
  interfaces : List CNIInterface
  ips : List CNIIPConfig
  routes : List CNIRoute
  dns : GoDNS
deriving DecidableEq, Repr

/-- `PodNetworkDesc`: the JSON payload of ADD; `dns` models the
`DNS *cnitypes.DNS` pointer (`none` = null). -/
structure PodNetworkDesc where
  podId : String
  podNs : String
  podName : String
  dns : Option GoDNS
deriving DecidableEq, Repr

/-! ### TapFDSource.GetFD (tapfdsource part of the source)

The steps that touch the outside world (netns creation, CNI provisioner,
netns open, in-namespace rewiring and DHCP startup, JSON marshalling)
are driven by a `TapEnv` recording each step's outcome; `TapResources`
records which resources have been acquired and never given back.  The
`CNIResult` carried in a successful outcome stands for the
JSON-marshalled response payload: `json.Marshal`/`json.Unmarshal` on
this document round-trip, so the decoded document is the structure
itself. -/

structure TapEnv where
  createNetNSOk : Bool
  addSandbox : Option CNIResult
  getNSOk : Bool
  setupCSN : Option Nat
  dhcpListenOk : Bool
  marshalOk : Bool

/-- Resources acquired by `TapFDSource.GetFD` so far: the pod netns
(`cni.CreateNetNS`), the CNI sandbox attachment
(`AddSandboxToNetwork`), the container-side network (tap/bridge rewiring
by `SetupContainerSideNetwork`), and the serving DHCP listener. -/
structure TapResources where
  netnsCreated : Bool
  sandboxAdded : Bool
  csnCreated : Bool
  dhcpServing : Bool
deriving DecidableEq, Repr

def noResources : TapResources :=
  ⟨false, false, false, false⟩

/-- The DNS override step of `GetFD` (lines 307-311): when the pod
descriptor carries DNS, copy its nameservers, search and options over
the provisioner's result (the `Domain` field is not copied). -/
def applyDNSOverride (pnd : PodNetworkDesc) (netConfig : CNIResult) : CNIResult :=
  match pnd.dns with
  | none => netConfig
  | some d =>
    { netConfig with
      dns := { nameservers := d.nameservers, domain := netConfig.dns.domain,
               search := d.search, options := d.options } }

structure TapGetFDResult where
  fdMap : List (String × PodNetworkDesc)
  res : TapResources
  result : Option (Nat × CNIResult)
deriving Repr

/-- `TapFDSource.GetFD`: unmarshal the pod descriptor (`data = none`
models malformed JSON), create the netns, attach the sandbox via the
provisioner, apply the DNS override, open the netns, rewire and start
DHCP inside it, marshal the response, and only then record the per-key
entry.  Every failing step returns the error with the entry unrecorded
and the resources acquired so far *not* released — the Go code has no
rollback on these paths. -/
def TapFDSource.getFD (fdMap : List (String × PodNetworkDesc)) (key : String)
    (data : Option PodNetworkDesc) (env : TapEnv) : TapGetFDResult :=
  match data with
  | none => ⟨fdMap, noResources, none⟩
  | some pnd =>
    if ¬ env.createNetNSOk then ⟨fdMap, noResources, none⟩
    else
      let r1 : TapResources := { noResources with netnsCreated := true }
      match env.addSandbox with
      | none => ⟨fdMap, r1, none⟩
      | some netConfig0 =>
        let r2 := { r1 with sandboxAdded := true }
        let netConfig := applyDNSOverride pnd netConfig0
        if ¬ env.getNSOk then ⟨fdMap, r2, none⟩
        else
          match env.setupCSN with
          | none => ⟨fdMap, r2, none⟩
          | some tapFd =>
            let r3 := { r2 with csnCreated := true }
            if ¬ env.dhcpListenOk then ⟨fdMap, r3, none⟩
            else
              let r4 := { r3 with dhcpServing := true }
              if ¬ env.marshalOk then ⟨fdMap, r4, none⟩
              else ⟨(key, pnd) :: fdMap, r4, some (tapFd, netConfig)⟩

/-! ### TapFDSource.Release -/

/-- The externally visible steps of `TapFDSource.Release`, in the order
the code attempts them. -/
inductive RelStep
  | getNetNS
  | closeDhcp
  | awaitDone
  | teardownCSN
  | removeSandbox
  | destroyNetNS
  | deleteEntry
deriving DecidableEq, Repr

/-- Outcomes of the fallible steps of `Release` (receiving on the
per-entry `doneCh` always completes). -/
structure RelEnv where
  getNSOk : Bool
  dhcpCloseOk : Bool
  teardownOk : Bool
  removeSandboxOk : Bool
  destroyNetNSOk : Bool

structure TapReleaseResult where
  fdMap : List (String × PodNetworkDesc)
  trace : List RelStep
  ok : Bool

/-- `TapFDSource.Release`: look the entry up (error when absent), open
the netns, and inside it stop the DHCP server, await the serve loop on
`doneCh`, and tear the container-side network down; then detach the
sandbox via the provisioner and destroy the netns; the entry is deleted
only after all of that succeeds, and any failure returns with the map
untouched.  `trace` lists the steps attempted, in order. -/
def TapFDSource.release (fdMap : List (String × PodNetworkDesc)) (key : String)
    (env : RelEnv) : TapReleaseResult :=
  match lookupAssoc fdMap key with
  | none => ⟨fdMap, [], false⟩
  | some _ =>
    if ¬ env.getNSOk then ⟨fdMap, [.getNetNS], false⟩
    else if ¬ env.dhcpCloseOk then ⟨fdMap, [.getNetNS, .closeDhcp], false⟩
    else if ¬ env.teardownOk then
      ⟨fdMap, [.getNetNS, .closeDhcp, .awaitDone, .teardownCSN], false⟩
    else if ¬ env.removeSandboxOk then
      ⟨fdMap, [.getNetNS, .closeDhcp, .awaitDone, .teardownCSN, .removeSandbox], false⟩
    else if ¬ env.destroyNetNSOk then
      ⟨fdMap, [.getNetNS, .closeDhcp, .awaitDone, .teardownCSN, .removeSandbox,
               .destroyNetNS], false⟩
    else
      ⟨removeAssoc fdMap key,
       [.getNetNS, .closeDhcp, .awaitDone, .teardownCSN, .removeSandbox,
        .destroyNetNS, .deleteEntry], true⟩

/-! ### FakeCNIClient.captureNetworkConfigAfterTeardown -/

/-- What the capture does: skipped unless exactly one IP; guarded error
for `ifaceIndex > len(interfaces)`; otherwise a Go slice access
`c.info.Interfaces[ifaceIndex]`, which panics when the index is
negative or equals the length (the netlink link inspection after a
successful access is outside the model). -/
inductive CaptureOutcome
  | skipped
  | badIndexError (i : Int)
  | indexOutOfRangePanic (i : Int)
  | captured (iface : CNIInterface)
deriving DecidableEq, Repr

/-- `captureNetworkConfigAfterTeardown` (fake CNI client, lines
149-172): runs only when the result has exactly one IP; the guard
rejects only indices strictly greater than `len(c.info.Interfaces)`
before indexing the slice. -/
def captureNetworkConfigAfterTeardown (info : CNIResult) : CaptureOutcome :=
  match info.ips with
  | [ip] =>
    let ifaceIndex := ip.interface
    if ifaceIndex > (info.interfaces.length : Int) then .badIndexError ifaceIndex
    else if h : 0 ≤ ifaceIndex ∧ ifaceIndex.toNat < info.interfaces.length then
      .captured (info.interfaces.get ⟨ifaceIndex.toNat, h.2⟩)
    else .indexOutOfRangePanic ifaceIndex
  | _ => .skipped

/-! ### Concrete sample inputs used by witnesses and counterexamples -/

/-- A source that always hands out fd 7 with an empty response. -/
def srcConst : FDSourceModel :=
  ⟨fun _ _ => .ok (7, []), fun _ => .ok []⟩

/-- Server whose registry already holds key `p1`. -/
def serverWithP1 : FDServer :=
  ⟨srcConst, [("p1", 3)]⟩

/-- Server with an empty registry. -/
def serverEmpty : FDServer :=
  ⟨srcConst, []⟩

/-- A frame with zeroed magic. -/
def frameBadMagic : Frame :=
  ⟨0, fdAdd, "k", []⟩

/-- A well-formed frame with the unknown command `0x03`. -/
def frameCmd3 : Frame :=
  ⟨fdMagic, 3, "k", []⟩

/-- A RELEASE frame for the unknown key `ghost`. -/
def frameReleaseGhost : Frame :=
  ⟨fdMagic, fdRelease, "ghost", []⟩

/-- An ADD frame for key `k2`. -/
def frameAddK2 : Frame :=
  ⟨fdMagic, fdAdd, "k2", []⟩

/-- A pod descriptor with a DNS override. -/
def pndDNS : PodNetworkDesc :=
  ⟨"p1", "default", "pod-1", some ⟨["1.1.1.1"], "", ["svc.local"], ["ndots:2"]⟩⟩

/-- A pod descriptor with the DNS pointer null. -/
def pndNoDNS : PodNetworkDesc :=
  ⟨"p1", "default", "pod-1", none⟩

/-- A single-interface provisioner result. -/
def netConfig1 : CNIResult :=
  ⟨[⟨"eth0", "aa:bb:cc:00:11:22", "placeholder"⟩],
   [⟨"4", 0, "10.1.90.5/24", "10.1.90.1"⟩],
   [⟨"0.0.0.0/0", "10.1.90.1"⟩],
   ⟨["8.8.8.8"], "", [], []⟩⟩

/-- Environment where every `GetFD` step succeeds (tap fd 5). -/
def envAllOk : TapEnv :=
  ⟨true, some netConfig1, true, some 5, true, true⟩

/-- Environment where the CNI provisioner step fails, after the netns
was created. -/
def envProvisionerFails : TapEnv :=
  ⟨true, none, true, some 5, true, true⟩

/-- Release environment where every step succeeds. -/
def relEnvAllOk : RelEnv :=
  ⟨true, true, true, true, true⟩

/-- Release environment where the provisioner detach step fails. -/
def relEnvRemoveFails : RelEnv :=
  ⟨true, true, true, false, true⟩

/-- A result with one IP whose interface index 0 equals the length of
its empty interfaces list. -/
def infoIndexAtLength : CNIResult :=
  ⟨[], [⟨"4", 0, "10.1.90.5/24", "10.1.90.1"⟩], [], ⟨[], "", [], []⟩⟩

/-- A result with two IPs (capture must skip). -/
def infoTwoIPs : CNIResult :=
  ⟨[⟨"eth0", "aa:bb:cc:00:11:22", "placeholder"⟩],
   [⟨"4", 0, "10.1.90.5/24", "10.1.90.1"⟩, ⟨"4", 0, "10.1.91.5/24", "10.1.91.1"⟩],
   [], ⟨[], "", [], []⟩⟩

/-- A concrete well-formed wire header. -/
def sampleHeader : FdHeader :=
  ⟨fdMagic, fdAdd, 2, 0, List.replicate 64 32⟩

/-- A RELEASE frame for an arbitrary key. -/
def releaseFrame (key : String) : Frame :=
  ⟨fdMagic, fdRelease, key, []⟩

/-- A key with leading whitespace. -/
def keyLeadingSpace : List Char :=
  [' ', 'a']

/-- The network config answered for `pndDNS` over `netConfig1`. -/
def respDNSOverride : CNIResult :=
  applyDNSOverride pndDNS netConfig1

end Virtlet

namespace Virtlet

/-! ### Helper lemmas -/

theorem beVal4_beBytes32 (n : Nat) (h : n < 2 ^ 32) :
    beVal4 (n / 2 ^ 24 % 256) (n / 2 ^ 16 % 256) (n / 2 ^ 8 % 256) (n % 256) = n := by
  unfold beVal4
  omega

theorem dropWhile_replicate_append {p : Char → Bool} {c : Char} (hc : p c = true)
    (n : Nat) (l : List Char) :
    (List.replicate n c ++ l).dropWhile p = l.dropWhile p := by
  induction n with
  | zero => simp
  | succ k ih => simp [List.replicate_succ, List.dropWhile_cons, hc, ih]

theorem dropWhile_replicate {p : Char → Bool} {c : Char} (hc : p c = true) (n : Nat) :
    (List.replicate n c).dropWhile p = [] := by
  simpa using dropWhile_replicate_append hc n []

theorem lookupAssoc_removeAssoc {α : Type} (l : List (String × α)) (key : String) :
    lookupAssoc (removeAssoc l key) key = none := by
  unfold lookupAssoc removeAssoc
  induction l with
  | nil => rfl
  | cons p rest ih =>
    cases hp : (p.1 == key) with
    | true =>
      simp only [List.filter_cons, hp, Bool.not_true, Bool.false_eq_true, if_false]
      exact ih
    | false =>
      simp only [List.filter_cons, hp, Bool.not_false, if_true, List.find?_cons, hp]
      exact ih

theorem removeAssoc_of_lookup_none {α : Type} (l : List (String × α)) (key : String)
    (h : lookupAssoc l key = none) : removeAssoc l key = l := by
  unfold lookupAssoc at h
  have h2 : l.find? (fun p => p.1 == key) = none := by
    cases hf : l.find? (fun p => p.1 == key) <;> simp [hf] at h ⊢
  unfold removeAssoc
  rw [List.filter_eq_self]
  intro p hp
  have hne := List.find?_eq_none.mp h2 p hp
  cases hb : (p.1 == key) with
  | true => exact absurd hb hne
  | false => simp [hb]

theorem dropWhile_of_head_false {p : Char → Bool} {l : List Char} {b : Char}
    (hh : l.head? = some b) (hb : p b = false) : l.dropWhile p = l := by
  cases l with
  | nil => cases hh
  | cons a t =>
    simp only [List.head?_cons, Option.some.injEq] at hh
    subst hh
    simp [List.dropWhile_cons, hb]

theorem tapGetFD_success_shape (fdMap : List (String × PodNetworkDesc)) (key : String)
    (pnd : PodNetworkDesc) (env : TapEnv) (fd : Nat) (resp : CNIResult)
    (hres : (TapFDSource.getFD fdMap key (some pnd) env).result = some (fd, resp)) :
    ∃ nc, env.addSandbox = some nc ∧ resp = applyDNSOverride pnd nc := by
  rcases env with ⟨c, a, g, sc, dh, m⟩
  cases c <;> cases a <;> cases g <;> cases sc <;> cases dh <;> cases m <;>
    simp_all [TapFDSource.getFD]

/-! ### Claim C5 -/

/-- Claim C5: the wire encoding of `fdHeader` (magic, command,
data_size, oob_size, key) is exactly 77 bytes (4+1+4+4+64) with
multi-byte fields big-endian, and decoding the encoding of any
well-formed header yields that header back. -/
theorem header_codec_roundtrip (h : FdHeader) (hwf : h.WF) :
    (encodeHeader h).length = 77 ∧ decodeHeader (encodeHeader h) = some h := by
  obtain ⟨m, c, d, o, key⟩ := h
  obtain ⟨hm, hc, hd, ho, hk, hb⟩ := hwf
  simp only [FdHeader.key] at hk
  constructor
  · simp [encodeHeader, beBytes32, hk]
  · simp only [encodeHeader, beBytes32, List.cons_append, List.nil_append,
      decodeHeader, hk, if_true]
    simp only [FdHeader.magic, FdHeader.command, FdHeader.dataSize, FdHeader.oobSize] at hm hd ho
    rw [beVal4_beBytes32 m hm, beVal4_beBytes32 d hd, beVal4_beBytes32 o ho]

/-- Witness for C5 at a concrete header. -/
theorem header_codec_roundtrip_witness :
    sampleHeader.WF ∧ (encodeHeader sampleHeader).length = 77 ∧
      decodeHeader (encodeHeader sampleHeader) = some sampleHeader :=
  ⟨by decide, header_codec_roundtrip sampleHeader (by decide)⟩

/-! ### Claim C8 -/

/-- Claim C8 counterexample: the key `" a"` (leading space) encodes into
the 64-byte field unchanged, but `GetKey` — `strings.TrimSpace` — strips
the *leading* whitespace too, so decoding returns `"a"`, not `" a"`:
characters before the key are not preserved. -/
theorem getKey_trims_leading_space :
    getKey (fdKey keyLeadingSpace) = ['a'] ∧
      getKey (fdKey keyLeadingSpace) ≠ keyLeadingSpace := by
  constructor
  · decide
  · decide

/-- Claim C8 (amended): key wire encoding left-justifies the key in a
64-byte field padded with spaces, and the decoder trims *both* leading
and trailing whitespace (`strings.TrimSpace`); for every key of at most
64 bytes without surrounding whitespace, decoding the encoding returns
the original key. -/
theorem key_codec_roundtrip (key : List Char) (hlen : key.length ≤ 64)
    (hfirst : ∀ c, key.head? = some c → goIsSpace c = false)
    (hlast : ∀ c, key.getLast? = some c → goIsSpace c = false) :
    fdKey key = key ++ List.replicate (64 - key.length) ' ' ∧
    (fdKey key).length = 64 ∧
    getKey (fdKey key) = key := by
  have hsp : goIsSpace ' ' = true := by decide
  have hpad : fdKey key = key ++ List.replicate (64 - key.length) ' ' := by
    unfold fdKey
    rw [List.take_of_length_le hlen]
  refine ⟨hpad, ?_, ?_⟩
  · rw [hpad]
    simp
    omega
  · rw [hpad]
    unfold getKey trimSpace
    cases key with
    | nil =>
      simp only [List.nil_append, List.length_nil, Nat.sub_zero]
      rw [dropWhile_replicate hsp]
      simp
    | cons a t =>
      have ha : goIsSpace a = false := hfirst a rfl
      have h1 : ((a :: t) ++ List.replicate (64 - (a :: t).length) ' ').dropWhile goIsSpace =
          (a :: t) ++ List.replicate (64 - (a :: t).length) ' ' := by
        simp [List.dropWhile_cons, ha]
      rw [h1, List.reverse_append, List.reverse_replicate,
        dropWhile_replicate_append hsp]
      have hlast' : (a :: t).getLast? = some ((a :: t).getLast (by simp)) :=
        List.getLast?_eq_getLast _ (by simp)
      have hrev : (a :: t).reverse.dropWhile goIsSpace = (a :: t).reverse :=
        dropWhile_of_head_false (by rw [List.head?_reverse]; exact hlast')
          (hlast _ hlast')
      rw [hrev, List.reverse_reverse]

/-- Witness for C8 at the concrete key `"abc"`. -/
theorem key_codec_roundtrip_witness :
    fdKey ['a', 'b', 'c'] = ['a', 'b', 'c'] ++ List.replicate 61 ' ' ∧
    (fdKey ['a', 'b', 'c']).length = 64 ∧
    getKey (fdKey ['a', 'b', 'c']) = ['a', 'b', 'c'] :=
  key_codec_roundtrip ['a', 'b', 'c'] (by decide)
    (by intro c hc; cases hc; decide) (by intro c hc; cases hc; decide)

/-! ### Claim C1 -/

/-- Claim C1 counterexample: with key `p1` already in the registry, an
ADD for `p1` does fail with the duplicate-key error, but
`source.GetFD` *is* invoked — `serveAdd` delegates to the source before
checking the registry, refuting "the source's GetFD is not invoked for
a duplicate key". -/
theorem serveAdd_invokes_source_on_duplicate :
    (lookupAssoc serverWithP1.fds "p1").isSome = true ∧
    (serverWithP1.serveAdd "p1" []).sourceInvoked = true ∧
    (serverWithP1.serveAdd "p1" []).resp = .error .fdKeyAlreadyExists :=
  ⟨rfl, rfl, rfl⟩

/-- Claim C1 (amended): for every key already present in the registry a
subsequent ADD fails with the duplicate-key error (`fd key already
exists`) and leaves the server unchanged, but the server delegates to
the FD source *before* checking the registry, so `source.GetFD` is
invoked even for a duplicate key. -/
theorem serveAdd_duplicate_key_after_source (s : FDServer) (key : String) (data : List Nat)
    (hdup : (lookupAssoc s.fds key).isSome = true) :
    (s.serveAdd key data).sourceInvoked = true ∧
    (s.serveAdd key data).server = s ∧
    (∀ fd r, s.source.getFDFn key data = .ok (fd, r) →
      (s.serveAdd key data).resp = .error .fdKeyAlreadyExists) := by
  unfold FDServer.serveAdd
  cases hs : s.source.getFDFn key data with
  | error e => simp
  | ok v =>
    obtain ⟨fd, r⟩ := v
    simp [FDServer.addFD, hdup]

/-- Witness for C1 (amended) at a concrete server and key. -/
theorem serveAdd_duplicate_key_witness :
    (serverWithP1.serveAdd "p1" [1, 2]).sourceInvoked = true ∧
    (serverWithP1.serveAdd "p1" [1, 2]).server = serverWithP1 ∧
    (serverWithP1.serveAdd "p1" [1, 2]).resp = .error .fdKeyAlreadyExists :=
  ⟨(serveAdd_duplicate_key_after_source serverWithP1 "p1" [1, 2] rfl).1,
   (serveAdd_duplicate_key_after_source serverWithP1 "p1" [1, 2] rfl).2.1,
   (serveAdd_duplicate_key_after_source serverWithP1 "p1" [1, 2] rfl).2.2 7 [] rfl⟩

/-! ### Claim C2 -/

/-- Claim C2 counterexample: a RELEASE for the unknown key `ghost` is
answered with a successful `fdReleaseResponse` (0x81) header, not the
ERROR response (0xff) the claim demands — `serveRelease` removes
best-effort and has no error path. -/
theorem serveRelease_unknown_key_no_error :
    lookupAssoc serverEmpty.fds "ghost" = none ∧
    (serverEmpty.serveRelease "ghost").2.command = fdReleaseResponse ∧
    fdReleaseResponse ≠ fdError :=
  ⟨rfl, rfl, by decide⟩

/-- Claim C2 (amended): a RELEASE whose key has no matching prior ADD
is answered with a successful `fdReleaseResponse` (best-effort removal,
no error), the registry is unchanged, and the connection remains usable:
the remaining frames are served exactly as they would have been. -/
theorem serveRelease_unknown_key_best_effort (s : FDServer) (key : String)
    (rest : List Frame) (habs : lookupAssoc s.fds key = none) :
    (s.serveRelease key).1 = s ∧
    (s.serveRelease key).2.command = fdReleaseResponse ∧
    s.serveConn (releaseFrame key :: rest) =
      ((s.serveConn rest).1,
       ((s.serveRelease key).2, [], []) :: (s.serveConn rest).2.1,
       (s.serveConn rest).2.2) := by
  have hsame : s.serveRelease key = (s, (s.serveRelease key).2) := by
    unfold FDServer.serveRelease FDServer.removeFD
    rw [removeAssoc_of_lookup_none s.fds key habs]
  constructor
  · exact congrArg Prod.fst hsame
  constructor
  · rfl
  · show FDServer.serveConn s (releaseFrame key :: rest) = _
    rw [FDServer.serveConn]
    have hstep : s.serveConnStep (releaseFrame key) =
        (s, .reply (s.serveRelease key).2 [] []) := by
      unfold FDServer.serveConnStep releaseFrame
      rw [if_neg (by simp), if_neg (by simp [fdRelease, fdAdd]), if_pos rfl]
      rw [show s.serveRelease key = (s, (s.serveRelease key).2) from hsame]
    rw [hstep]

/-- Witness for C2 (amended) at a concrete server and frame list. -/
theorem serveRelease_unknown_key_witness :
    (serverEmpty.serveRelease "ghost").1 = serverEmpty ∧
    (serverEmpty.serveRelease "ghost").2.command = fdReleaseResponse ∧
    serverEmpty.serveConn (releaseFrame "ghost" :: [frameAddK2]) =
      ((serverEmpty.serveConn [frameAddK2]).1,
       ((serverEmpty.serveRelease "ghost").2, [], []) ::
         (serverEmpty.serveConn [frameAddK2]).2.1,
       (serverEmpty.serveConn [frameAddK2]).2.2) :=
  serveRelease_unknown_key_best_effort serverEmpty "ghost" [frameAddK2] rfl

/-! ### Claim C4 -/

/-- Claim C4 counterexample: a frame with good magic and the unknown
command `0x03` makes the server *send an `fdError` response and keep
the connection open* — the following RELEASE frame is still served and
the connection ends by EOF (`false`), refuting "closes the connection
rather than sending an ERROR response" for unknown commands. -/
theorem serveConn_bad_command_keeps_connection :
    (serverEmpty.serveConn [frameCmd3, frameReleaseGhost]).2.2 = false ∧
    (serverEmpty.serveConn [frameCmd3, frameReleaseGhost]).2.1.map
        (fun r => r.1.command) = [fdError, fdReleaseResponse] := by
  constructor
  · rfl
  · rfl

/-- Claim C4 (amended): a frame whose magic differs from `0x42424242`
closes the connection without any response, but a frame whose command
is none of ADD, RELEASE and GET elicits an `fdError` response on the
connection, which stays open. -/
theorem serveConn_bad_magic_and_bad_command (s : FDServer) (f : Frame) :
    (f.magic ≠ fdMagic → s.serveConnStep f = (s, .closeBadMagic)) ∧
    (f.magic = fdMagic → f.command ≠ fdAdd → f.command ≠ fdRelease → f.command ≠ fdGet →
      s.serveConnStep f =
        (s, .reply (errRespHdr .badCommand) (ServeErr.bytes .badCommand) [])) := by
  constructor
  · intro hm
    unfold FDServer.serveConnStep
    rw [if_pos hm]
  · intro hm h1 h2 h3
    unfold FDServer.serveConnStep
    rw [if_neg (by simp [hm]), if_neg h1, if_neg h2, if_neg h3]

/-- Witness for C4 (amended) at concrete frames. -/
theorem serveConn_bad_magic_and_bad_command_witness :
    serverEmpty.serveConnStep frameBadMagic = (serverEmpty, .closeBadMagic) ∧
    serverEmpty.serveConnStep frameCmd3 =
      (serverEmpty, .reply (errRespHdr .badCommand) (ServeErr.bytes .badCommand) []) :=
  ⟨(serveConn_bad_magic_and_bad_command serverEmpty frameBadMagic).1 (by decide),
   (serveConn_bad_magic_and_bad_command serverEmpty frameCmd3).2 rfl
     (by decide) (by decide) (by decide)⟩

/-! ### Claim C3 -/

/-- Claim C3 counterexample: when the provisioner step of
`TapFDSource.GetFD` fails after the netns was created, the error is
returned with the netns still in place — the acquired resources are not
rolled back, refuting "every resource acquired by the preceding steps is
rolled back before the error is returned". -/
theorem tapGetFD_no_rollback :
    (TapFDSource.getFD [] "p1" (some pndNoDNS) envProvisionerFails).result = none ∧
    (TapFDSource.getFD [] "p1" (some pndNoDNS) envProvisionerFails).res.netnsCreated = true ∧
    (TapFDSource.getFD [] "p1" (some pndNoDNS) envProvisionerFails).res ≠ noResources :=
  ⟨rfl, rfl, by decide⟩

/-- Claim C3 (amended): when any step of `TapFDSource.GetFD` fails, the
per-key state is unchanged — the entry is not recorded — but resources
acquired by the preceding steps are *not* rolled back: in particular,
when the provisioner invocation fails, the netns created by the
preceding step remains. -/
theorem tapGetFD_error_leaves_map_unchanged (fdMap : List (String × PodNetworkDesc))
    (key : String) (data : Option PodNetworkDesc) (env : TapEnv)
    (herr : (TapFDSource.getFD fdMap key data env).result = none) :
    (TapFDSource.getFD fdMap key data env).fdMap = fdMap ∧
    (∀ pnd, data = some pnd → env.createNetNSOk = true → env.addSandbox = none →
      (TapFDSource.getFD fdMap key data env).res.netnsCreated = true) := by
  rcases env with ⟨c, a, g, sc, dh, m⟩
  cases data <;> cases c <;> cases a <;> cases g <;> cases sc <;> cases dh <;> cases m <;>
    simp_all [TapFDSource.getFD]

/-- Witness for C3 (amended) at a concrete failing add. -/
theorem tapGetFD_error_witness :
    (TapFDSource.getFD [] "p1" (some pndNoDNS) envProvisionerFails).fdMap = [] ∧
    (TapFDSource.getFD [] "p1" (some pndNoDNS) envProvisionerFails).res.netnsCreated = true :=
  ⟨(tapGetFD_error_leaves_map_unchanged [] "p1" (some pndNoDNS) envProvisionerFails rfl).1,
   (tapGetFD_error_leaves_map_unchanged [] "p1" (some pndNoDNS) envProvisionerFails rfl).2
     pndNoDNS rfl rfl rfl⟩

/-! ### Claim C6 -/

/-- Claim C6: `TapFDSource.Release` performs its steps in reverse order
of add — open the netns handle, then stop the DHCP server, await the
serve loop on the per-entry channel, tear the container-side network
down, detach the pod via the provisioner, destroy the netns, and delete
the per-key entry last; when any step fails, the map is unchanged and
the entry was never deleted. -/
theorem tapRelease_reverse_order (fdMap : List (String × PodNetworkDesc))
    (key : String) (env : RelEnv) :
    ((TapFDSource.release fdMap key env).ok = true →
      (TapFDSource.release fdMap key env).trace =
        [.getNetNS, .closeDhcp, .awaitDone, .teardownCSN, .removeSandbox,
         .destroyNetNS, .deleteEntry] ∧
      lookupAssoc (TapFDSource.release fdMap key env).fdMap key = none) ∧
    ((TapFDSource.release fdMap key env).ok = false →
      (TapFDSource.release fdMap key env).fdMap = fdMap ∧
      RelStep.deleteEntry ∉ (TapFDSource.release fdMap key env).trace) := by
  rcases env with ⟨g, d, t, rs, dn⟩
  cases hl : lookupAssoc fdMap key with
  | none => simp [TapFDSource.release, hl]
  | some pn =>
    cases g <;> cases d <;> cases t <;> cases rs <;> cases dn <;>
      simp [TapFDSource.release, hl, lookupAssoc_removeAssoc]

/-- Witness for C6: a successful release and a failing one at concrete
inputs. -/
theorem tapRelease_reverse_order_witness :
    (TapFDSource.release [("p1", pndNoDNS)] "p1" relEnvAllOk).trace =
      [.getNetNS, .closeDhcp, .awaitDone, .teardownCSN, .removeSandbox,
       .destroyNetNS, .deleteEntry] ∧
    lookupAssoc (TapFDSource.release [("p1", pndNoDNS)] "p1" relEnvAllOk).fdMap "p1" = none ∧
    (TapFDSource.release [("p1", pndNoDNS)] "p1" relEnvRemoveFails).fdMap = [("p1", pndNoDNS)] ∧
    RelStep.deleteEntry ∉ (TapFDSource.release [("p1", pndNoDNS)] "p1" relEnvRemoveFails).trace :=
  ⟨((tapRelease_reverse_order [("p1", pndNoDNS)] "p1" relEnvAllOk).1 rfl).1,
   ((tapRelease_reverse_order [("p1", pndNoDNS)] "p1" relEnvAllOk).1 rfl).2,
   ((tapRelease_reverse_order [("p1", pndNoDNS)] "p1" relEnvRemoveFails).2 rfl).1,
   ((tapRelease_reverse_order [("p1", pndNoDNS)] "p1" relEnvRemoveFails).2 rfl).2⟩

/-! ### Claim C7 -/

/-- Claim C7: when the pod descriptor's DNS field is non-null, a
successful `TapFDSource.GetFD` answers a network result whose DNS
nameservers, search and options equal the descriptor's DNS; when the
DNS field is null, the provisioner's DNS block is returned unchanged.
(The `CNIResult` in the outcome stands for the JSON-marshalled response
payload; `json.Marshal`/`json.Unmarshal` round-trip on it.) -/
theorem tapGetFD_dns_override (fdMap : List (String × PodNetworkDesc)) (key : String)
    (pnd : PodNetworkDesc) (env : TapEnv) (fd : Nat) (resp : CNIResult)
    (hres : (TapFDSource.getFD fdMap key (some pnd) env).result = some (fd, resp)) :
    (∀ d, pnd.dns = some d →
      resp.dns.nameservers = d.nameservers ∧ resp.dns.search = d.search ∧
        resp.dns.options = d.options) ∧
    (pnd.dns = none → ∀ nc, env.addSandbox = some nc → resp.dns = nc.dns) := by
  obtain ⟨nc, hnc, hresp⟩ := tapGetFD_success_shape fdMap key pnd env fd resp hres
  subst hresp
  constructor
  · intro d hd
    simp [applyDNSOverride, hd]
  · intro hd nc' hnc'
    rw [hnc] at hnc'
    obtain rfl : nc = nc' := by injection hnc'
    simp [applyDNSOverride, hd]

/-- Witness for C7 at a concrete add with a DNS override. -/
theorem tapGetFD_dns_override_witness :
    pndDNS.dns = some ⟨["1.1.1.1"], "", ["svc.local"], ["ndots:2"]⟩ ∧
    respDNSOverride.dns.nameservers = ["1.1.1.1"] ∧
    respDNSOverride.dns.search = ["svc.local"] ∧
    respDNSOverride.dns.options = ["ndots:2"] :=
  ⟨rfl,
   (tapGetFD_dns_override [] "p1" pndDNS envAllOk 5 respDNSOverride rfl).1
     ⟨["1.1.1.1"], "", ["svc.local"], ["ndots:2"]⟩ rfl⟩

/-! ### Claim C9 -/

/-- Claim C9: a response with `data_size == 0` but OOB data present is
transmitted by the server as a single-byte message, and the client's
size validation accepts a one-byte read exactly when the expected
payload length is 0 and the read length is 1, rejecting every other
mismatch. -/
theorem zero_payload_single_byte (oob : List Nat) (h : oob ≠ []) :
    serverWritesMessage [] oob = some 1 ∧
    clientAcceptsDataSize 0 1 = true ∧
    (∀ expected n, n ≠ expected →
      (clientAcceptsDataSize expected n = true ↔ expected = 0 ∧ n = 1)) := by
  refine ⟨?_, by decide, ?_⟩
  · have hlen : oob.length ≠ 0 := by
      simpa using h
    simp [serverWritesMessage, writeMsgUnixPayloadBytes, hlen, Nat.pos_of_ne_zero hlen]
  · intro e n hne
    by_cases he : e = 0 <;> by_cases hn : n = 1 <;>
      simp [clientAcceptsDataSize, hne, he, hn] <;> omega

/-- Witness for C9 at concrete OOB data and sizes. -/
theorem zero_payload_single_byte_witness :
    serverWritesMessage [] [9] = some 1 ∧
    clientAcceptsDataSize 0 1 = true ∧
    (clientAcceptsDataSize 3 2 = true ↔ (3 : Nat) = 0 ∧ (2 : Nat) = 1) :=
  ⟨(zero_payload_single_byte [9] (by decide)).1,
   (zero_payload_single_byte [9] (by decide)).2.1,
   (zero_payload_single_byte [9] (by decide)).2.2 3 2 (by decide)⟩

/-! ### Claim C10 -/

/-- Claim C10 evaluated at the failing input: the capture runs only for
exactly one IP, but its range guard is `ifaceIndex > len(interfaces)`,
so an interface index *equal* to the length (here index 0 with an empty
interfaces list) passes the guard and the slice access panics out of
bounds instead of reporting the `bad interface index` error. -/
theorem capture_guard_off_by_one :
    captureNetworkConfigAfterTeardown infoIndexAtLength = .indexOutOfRangePanic 0 ∧
    captureNetworkConfigAfterTeardown infoIndexAtLength ≠ .badIndexError 0 ∧
    captureNetworkConfigAfterTeardown infoTwoIPs = .skipped :=
  ⟨by decide, by decide, by decide⟩

end Virtlet
